import Mathlib

/-!
Verification of the MaidSafe-Drive open-file layer.

The repository excerpt contains the tests of `maidsafe::drive::detail::File`
(`src/unnamed/part_000`) and the header `src/include/maidsafe/drive/utils.h`
(the `FileContext` constructors and the `Put`/`Get`/`Delete` storage-backend
dispatch structs).  The `File` implementation itself (`maidsafe/drive/file.h`)
is not part of the excerpt, so the `File` state machine below is modelled from
the specification; `FileContext` and the storage dispatch are embedded
directly from `utils.h`.

Bytes are modelled as `Nat`, file content as `List Nat`, timestamps as `Nat`
(monotone clock readings passed in by the caller).
-/

/-- Modelled from the spec: `MetaData::FileType` tagged variant. Only the two
constructors exercised by the excerpt are modelled. -/
inductive FileType where
  | regular_file
  | directory
  deriving DecidableEq

/-- Modelled from the spec (§3 Data Model): per-file attributes: name, the four
timestamps, logical `size`, `allocation_size`, the type tag, and the mutually
exclusive `data_map` (files) / `directory_id` (directories) handles.
`data_map` is an ordered list of chunk addresses; `some []` is the allocated,
empty data map a fresh regular file carries. -/
structure MetaData where
  name : String
  creation_time : Nat
  last_status_time : Nat
  last_write_time : Nat
  last_access_time : Nat
  size : Nat
  allocation_size : Nat
  file_type : FileType
  data_map : Option (List Nat)
  directory_id : Option Nat
  deriving DecidableEq

/-- Modelled from the spec (§7 Error Handling): the error taxonomy reachable
from the modelled `File` operations. -/
inductive FileError where
  | NotOpenError
  | AlreadyOpenError
  | UsageExceededError
  deriving DecidableEq

/-- Modelled from the spec (§3, §4.1): the live state of one `File`:
its metadata, whether a Chunk Store Capability is attached (`isOpen`), the
buffered logical byte content, the dirty flag `content_changed`, the two usage
ceilings handed to `Open`, and the number of pending deferred flush tasks on
the scheduler (coalesced, so 0 or 1 in every reachable state). -/
structure FileState where
  meta_data : MetaData
  isOpen : Bool
  content : List Nat
  content_changed : Bool
  memory_ceiling : Nat
  disk_ceiling : Nat
  pendingTasks : Nat
  deriving DecidableEq

/-- Modelled from the spec: the `MetaData(name, is_directory)` constructor
(header absent from the excerpt): all four timestamps equal to the creation
instant `t`, size and allocation_size zero, and exactly one of
`data_map` / `directory_id` populated according to the type tag. -/
def MetaData.create (name : String) (is_directory : Bool) (t : Nat) : MetaData :=
  { name := name
    creation_time := t
    last_status_time := t
    last_write_time := t
    last_access_time := t
    size := 0
    allocation_size := 0
    file_type := if is_directory then FileType.directory else FileType.regular_file
    data_map := if is_directory then none else some []
    directory_id := if is_directory then some 0 else none }

/-- Modelled from the spec: `File::Create(scheduler, name, is_directory)`
(`maidsafe/drive/file.h` absent from the excerpt): a fresh Metadata, no
capability attached, nothing buffered, clean, no scheduled work. -/
def FileState.Create (name : String) (is_directory : Bool) (t : Nat) : FileState :=
  { meta_data := MetaData.create name is_directory t
    isOpen := false
    content := []
    content_changed := false
    memory_ceiling := 0
    disk_ceiling := 0
    pendingTasks := 0 }

/-- Modelled from the spec: `File::Open(retrieval_callback, memory_ceiling,
disk_ceiling, staging_location)`: fails with `AlreadyOpenError` on double
open, otherwise attaches the capability with the given ceilings; reopening
before a pending deferred task fires cancels/absorbs that task. -/
def FileState.Open (f : FileState) (memory_ceiling disk_ceiling : Nat) :
    Except FileError FileState :=
  if f.isOpen then Except.error FileError.AlreadyOpenError
  else Except.ok { f with
    isOpen := true
    memory_ceiling := memory_ceiling
    disk_ceiling := disk_ceiling
    pendingTasks := 0 }

/-- Modelled from the spec: `File::Read(buffer, length, offset)`: copies the
in-bounds part of the requested range out of the buffered content and stamps
`last_access_time` with the operation instant `t`; `NotOpenError` when no
capability is attached. Returns the bytes copied together with the new state. -/
def FileState.Read (f : FileState) (len offset t : Nat) :
    Except FileError (List Nat × FileState) :=
  if f.isOpen then
    Except.ok ((f.content.drop offset).take len,
      { f with meta_data := { f.meta_data with last_access_time := t } })
  else Except.error FileError.NotOpenError

/-- Modelled from the spec: the buffered-content effect of a write of `data`
at `offset`: the gap between the old end and `offset` (if any) is zero-filled,
then the range `[offset, offset + data.length)` is replaced by `data`. -/
def writeBytes (content data : List Nat) (offset : Nat) : List Nat :=
  let base := content ++ List.replicate (offset - content.length) 0
  base.take offset ++ data ++ base.drop (offset + data.length)

/-- Modelled from the spec: `File::Write(data, length, offset)`: returns
`length` on success, extends `size`/`allocation_size` to
`max(size, offset + length)`, sets `content_changed`, and stamps
`last_write_time`, `last_status_time` and `last_access_time` with the same
operation instant `t`; `NotOpenError` when not open. -/
def FileState.Write (f : FileState) (data : List Nat) (offset t : Nat) :
    Except FileError (Nat × FileState) :=
  if f.isOpen then
    Except.ok (data.length,
      { f with
          content := writeBytes f.content data offset
          content_changed := true
          meta_data := { f.meta_data with
            size := max f.meta_data.size (offset + data.length)
            allocation_size := max f.meta_data.size (offset + data.length)
            last_write_time := t
            last_status_time := t
            last_access_time := t } })
  else Except.error FileError.NotOpenError

/-- Modelled from the spec: the buffered-content effect of `Truncate(n)`:
keep the first `n` bytes and zero-fill up to `n` when growing. -/
def truncateBytes (content : List Nat) (n : Nat) : List Nat :=
  content.take n ++ List.replicate (n - content.length) 0

/-- Modelled from the spec: `File::Truncate(new_size)`: sets
`size = allocation_size = new_size`, zero-fills a growing gap, makes bytes
beyond a shrunk end unreadable, sets `content_changed`, and stamps the write,
status and access times with the operation instant `t`. -/
def FileState.Truncate (f : FileState) (n t : Nat) :
    Except FileError FileState :=
  if f.isOpen then
    Except.ok { f with
      content := truncateBytes f.content n
      content_changed := true
      meta_data := { f.meta_data with
        size := n
        allocation_size := n
        last_write_time := t
        last_status_time := t
        last_access_time := t } }
  else Except.error FileError.NotOpenError

/-- Modelled from the spec: `File::Close()`: on a clean file the capability is
detached immediately; on a dirty file a deferred finalization task is
scheduled, superseding/coalescing with any still-pending task (so exactly one
task is pending afterwards). Metadata is untouched. -/
def FileState.Close (f : FileState) : FileState :=
  if f.content_changed then { f with pendingTasks := 1 }
  else { f with isOpen := false }

/-- Modelled from the spec: the deferred flush task scheduled by `Close`.
When it runs it flushes the buffered chunks and detaches the capability;
if the unflushed bytes exceed `memory_ceiling + disk_ceiling` it reports
`UsageExceededError` instead of succeeding. Metadata (size, timestamps) is
authoritative at `Close` time and is not changed by the flush. -/
def FileState.RunFlush (f : FileState) : FileState × Except FileError Unit :=
  if f.content.length ≤ f.memory_ceiling + f.disk_ceiling then
    ({ f with isOpen := false, content_changed := false, pendingTasks := 0 },
     Except.ok ())
  else
    ({ f with isOpen := false, pendingTasks := 0 },
     Except.error FileError.UsageExceededError)

/-- From `src/include/maidsafe/drive/utils.h` (lines 35-69): the
`FileContext<Storage>` struct. `meta_data` is a `shared_ptr<MetaData>`
(modelled as `Option MetaData`, `none` for null), `self_encryptor` a
`shared_ptr<SelfEncryptor<Storage>>` that all three constructors leave null
(modelled as `Option Unit`), and the two directory ids are value-initialized
opaque identifiers (modelled as `Nat` with default 0). -/
structure FileContext where
  meta_data : Option MetaData
  self_encryptor : Option Unit
  content_changed : Bool
  grandparent_directory_id : Nat
  parent_directory_id : Nat
  deriving DecidableEq

/-- Modelled from the spec: the default `MetaData` constructor used by the
default `FileContext` constructor (`new MetaData`; header absent from the
excerpt). Its field values are irrelevant to the embedded claims. -/
def MetaData.mkDefault : MetaData := MetaData.create "" false 0

/-- From utils.h lines 47-53: the default `FileContext` constructor:
fresh default metadata, null encryptor, `content_changed = false`. -/
def FileContext.mkDefault : FileContext :=
  { meta_data := some MetaData.mkDefault
    self_encryptor := none
    content_changed := false
    grandparent_directory_id := 0
    parent_directory_id := 0 }

/-- From utils.h lines 55-61: the `FileContext(name, is_directory)`
constructor: `meta_data = new MetaData(name, is_directory)`, null encryptor,
`content_changed = !is_directory`. -/
def FileContext.mkNamed (name : String) (is_directory : Bool) : FileContext :=
  { meta_data := some (MetaData.create name is_directory 0)
    self_encryptor := none
    content_changed := !is_directory
    grandparent_directory_id := 0
    parent_directory_id := 0 }

/-- From utils.h lines 63-69: the `FileContext(meta_data_in)` constructor:
adopts the passed metadata handle, null encryptor, `content_changed = false`. -/
def FileContext.mkFromMetaData (meta_data_in : Option MetaData) : FileContext :=
  { meta_data := meta_data_in
    self_encryptor := none
    content_changed := false
    grandparent_directory_id := 0
    parent_directory_id := 0 }

deriving instance DecidableEq for Except

/-- A default-constructed `NonEmptyString` (never given a value): modelled as
the empty string. -/
def defaultNonEmptyString : String := ""

/-- The `nfs::ClientMaidNfs` network backend, modelled for the `Get` dispatch:
`store` is the value the network would deliver to the response functor for a
given name. -/
structure ClientMaidNfs where
  store : String → String

/-- From utils.h lines 103-109: the generic `detail::Get<Storage, Directory>`
functor returns `storage.Get(name)` directly; the storage is modelled by the
map from names to stored serialized values. -/
def GetGeneric (storage : String → String) (name : String) : String :=
  storage name

/-- From utils.h lines 111-119: the `detail::Get<nfs::ClientMaidNfs, Directory>`
specialization submits the asynchronous `storage.Get<Directory>(name, nullptr)`
request, whose value is delivered to a response functor that is passed as
`nullptr`, and returns a default-constructed `NonEmptyString` regardless of
the storage state. -/
def GetClientMaidNfs (storage : ClientMaidNfs) (name : String) : String :=
  defaultNonEmptyString

/-- A concrete freshly-created-and-opened regular file used by the witnesses:
`File::Create(asio_service, "foo", false)` at instant 0 followed by
`Open` with memory ceiling 4 and disk ceiling 4. -/
def sampleEmptyOpen : FileState :=
  { meta_data := MetaData.create "foo" false 0
    isOpen := true
    content := []
    content_changed := false
    memory_ceiling := 4
    disk_ceiling := 4
    pendingTasks := 0 }

/-- A concrete open file already holding two buffered bytes, reached from
`sampleEmptyOpen` by `Write [7, 7] 0 1`. -/
def sampleTwoByteOpen : FileState :=
  { meta_data := { MetaData.create "foo" false 0 with
      size := 2
      allocation_size := 2
      last_status_time := 1
      last_write_time := 1
      last_access_time := 1 }
    isOpen := true
    content := [7, 7]
    content_changed := true
    memory_ceiling := 4
    disk_ceiling := 4
    pendingTasks := 0 }

/-- The run used by the counterexample to the unrestricted write/read
round-trip claim: on an open file already holding the two bytes `[7, 7]`,
write the single byte `[3]` at offset 0 and then read `size` bytes from
offset 0. -/
def writeThenFullRead : Except FileError (List Nat) :=
  (sampleTwoByteOpen.Write [3] 0 2).bind
    (fun p => (p.2.Read p.2.meta_data.size 0 3).map (fun q => q.1))

/-- C6: immediately after `Create` with `is_directory = false`:
size = allocation_size = 0, all four timestamps equal the creation instant,
`data_map` is non-null, `directory_id` is null, and the type tag is
`regular_file`. -/
theorem create_regular_file_fields (name : String) (t : Nat) :
    (FileState.Create name false t).meta_data.size = 0 ∧
    (FileState.Create name false t).meta_data.allocation_size = 0 ∧
    (FileState.Create name false t).meta_data.creation_time = t ∧
    (FileState.Create name false t).meta_data.last_status_time = t ∧
    (FileState.Create name false t).meta_data.last_write_time = t ∧
    (FileState.Create name false t).meta_data.last_access_time = t ∧
    (FileState.Create name false t).meta_data.data_map = some [] ∧
    (FileState.Create name false t).meta_data.directory_id = none ∧
    (FileState.Create name false t).meta_data.file_type = FileType.regular_file := by
  refine ⟨rfl, rfl, rfl, rfl, rfl, rfl, rfl, rfl, rfl⟩

/-- C1 counterexample: the claim quantifies over every open regular file, but
on an open file that already holds the two bytes `[7, 7]`, writing the byte
string `[3]` at offset 0 leaves `size = 2 ≠ 1` (size extends to
`max(size, offset + length)`, it does not shrink), and reading `size` bytes
from offset 0 returns `[3, 7]`, not the written string `[3]`. -/
theorem write_read_unrestricted_counterexample :
    writeThenFullRead = Except.ok [3, 7] ∧ ([3, 7] : List Nat) ≠ [3] ∧
    (sampleTwoByteOpen.Write [3] 0 2).map (fun p => p.2.meta_data.size) =
      Except.ok 2 ∧
    (2 : Nat) ≠ List.length [3] := by
  decide

/-- C1 (amended): for every open regular file whose buffered content matches
its size and whose size is at most the length of `s` (in particular every
freshly created file), writing `s` at offset 0 succeeds returning `s.length`,
afterwards `size = allocation_size = s.length`, and reading `size` bytes from
offset 0 returns exactly `s`. -/
theorem write_read_roundtrip (f : FileState) (s : List Nat) (t u : Nat)
    (hopen : f.isOpen = true) (hwf : f.content.length = f.meta_data.size)
    (hle : f.meta_data.size ≤ s.length) :
    ∃ f₁, f.Write s 0 t = Except.ok (s.length, f₁) ∧
      f₁.meta_data.size = s.length ∧
      f₁.meta_data.allocation_size = s.length ∧
      ∃ f₂, f₁.Read f₁.meta_data.size 0 u = Except.ok (s, f₂) := by
  have hcontent : writeBytes f.content s 0 = s := by
    have hd : f.content.drop s.length = [] :=
      List.drop_eq_nil_of_le (by omega)
    simp [writeBytes, hd]
  have hsize : max f.meta_data.size (0 + s.length) = s.length := by omega
  simp only [FileState.Write, hopen, if_true, hcontent, hsize]
  refine ⟨_, rfl, rfl, rfl, ?_⟩
  simp only [FileState.Read, hopen, if_true]
  exact ⟨_, by rw [List.drop_zero, List.take_length]⟩

/-- C1 witness: the amended round-trip claim instantiated on the concrete
freshly created and opened file and the two-byte string `[1, 2]`. -/
theorem write_read_roundtrip_witness :
    sampleEmptyOpen.isOpen = true ∧
    sampleEmptyOpen.content.length = sampleEmptyOpen.meta_data.size ∧
    sampleEmptyOpen.meta_data.size ≤ [1, 2].length ∧
    (∃ f₁, sampleEmptyOpen.Write [1, 2] 0 5 = Except.ok ([1, 2].length, f₁) ∧
      f₁.meta_data.size = [1, 2].length ∧
      f₁.meta_data.allocation_size = [1, 2].length ∧
      ∃ f₂, f₁.Read f₁.meta_data.size 0 6 = Except.ok ([1, 2], f₂)) :=
  ⟨by decide, by decide, by decide,
   write_read_roundtrip sampleEmptyOpen [1, 2] 5 6
     (by decide) (by decide) (by decide)⟩

/-- C2: for every open file whose buffered content matches its size, a read
of `len` bytes at `offset` succeeds (reading past end is not an error) and
returns `min len (size - offset)` bytes when `offset < size` and `0` bytes
when `offset ≥ size`. -/
theorem read_length_formula (f : FileState) (len offset t : Nat)
    (hopen : f.isOpen = true) (hwf : f.content.length = f.meta_data.size) :
    ∃ bytes f₁, f.Read len offset t = Except.ok (bytes, f₁) ∧
      bytes.length =
        if offset < f.meta_data.size then min len (f.meta_data.size - offset)
        else 0 := by
  simp only [FileState.Read, hopen, if_true]
  refine ⟨_, _, rfl, ?_⟩
  rw [List.length_take, List.length_drop, hwf]
  split <;> omega

/-- C2 witness: the read-length formula instantiated on the concrete open
file holding two bytes, reading 5 bytes at offset 1. -/
theorem read_length_formula_witness :
    sampleTwoByteOpen.isOpen = true ∧
    sampleTwoByteOpen.content.length = sampleTwoByteOpen.meta_data.size ∧
    (∃ bytes f₁, sampleTwoByteOpen.Read 5 1 3 = Except.ok (bytes, f₁) ∧
      bytes.length =
        if 1 < sampleTwoByteOpen.meta_data.size
        then min 5 (sampleTwoByteOpen.meta_data.size - 1) else 0) :=
  ⟨by decide, by decide,
   read_length_formula sampleTwoByteOpen 5 1 3 (by decide) (by decide)⟩

/-- C7: for every open file whose buffered content matches its size, a read
at `offset ≥ size` with an operation instant at or after the current access
time yields zero bytes and leaves `size`, `allocation_size`,
`last_write_time` and `last_status_time` unchanged, while `last_access_time`
does not decrease. -/
theorem read_past_end_frame (f : FileState) (len offset t : Nat)
    (hopen : f.isOpen = true) (hwf : f.content.length = f.meta_data.size)
    (hoff : f.meta_data.size ≤ offset)
    (hmono : f.meta_data.last_access_time ≤ t) :
    ∃ f₁, f.Read len offset t = Except.ok ([], f₁) ∧
      f₁.meta_data.size = f.meta_data.size ∧
      f₁.meta_data.allocation_size = f.meta_data.allocation_size ∧
      f₁.meta_data.last_write_time = f.meta_data.last_write_time ∧
      f₁.meta_data.last_status_time = f.meta_data.last_status_time ∧
      f.meta_data.last_access_time ≤ f₁.meta_data.last_access_time := by
  have hd : f.content.drop offset = [] := List.drop_eq_nil_of_le (by omega)
  simp only [FileState.Read, hopen, if_true, hd, List.take_nil]
  exact ⟨_, rfl, rfl, rfl, rfl, rfl, hmono⟩

/-- C7 witness: the past-end read frame property instantiated on the
concrete open file holding two bytes, reading 7 bytes at offset 9. -/
theorem read_past_end_frame_witness :
    sampleTwoByteOpen.isOpen = true ∧
    sampleTwoByteOpen.content.length = sampleTwoByteOpen.meta_data.size ∧
    sampleTwoByteOpen.meta_data.size ≤ 9 ∧
    sampleTwoByteOpen.meta_data.last_access_time ≤ 4 ∧
    (∃ f₁, sampleTwoByteOpen.Read 7 9 4 = Except.ok ([], f₁) ∧
      f₁.meta_data.size = sampleTwoByteOpen.meta_data.size ∧
      f₁.meta_data.allocation_size = sampleTwoByteOpen.meta_data.allocation_size ∧
      f₁.meta_data.last_write_time = sampleTwoByteOpen.meta_data.last_write_time ∧
      f₁.meta_data.last_status_time = sampleTwoByteOpen.meta_data.last_status_time ∧
      sampleTwoByteOpen.meta_data.last_access_time ≤
        f₁.meta_data.last_access_time) :=
  ⟨by decide, by decide, by decide, by decide,
   read_past_end_frame sampleTwoByteOpen 7 9 4
     (by decide) (by decide) (by decide) (by decide)⟩

/-- C8: for every open file, a write of `data` at `offset` with an operation
instant at or after the creation time succeeds returning `data.length`, and
afterwards `last_write_time = last_status_time = last_access_time`, all at or
after the unchanged `creation_time`. -/
theorem write_returns_length_and_times (f : FileState) (data : List Nat)
    (offset t : Nat)
    (hopen : f.isOpen = true) (hct : f.meta_data.creation_time ≤ t) :
    ∃ f₁, f.Write data offset t = Except.ok (data.length, f₁) ∧
      f₁.meta_data.last_write_time = f₁.meta_data.last_status_time ∧
      f₁.meta_data.last_status_time = f₁.meta_data.last_access_time ∧
      f₁.meta_data.creation_time = f.meta_data.creation_time ∧
      f₁.meta_data.creation_time ≤ f₁.meta_data.last_write_time := by
  simp only [FileState.Write, hopen, if_true]
  exact ⟨_, rfl, rfl, rfl, rfl, hct⟩

/-- C8 witness: the write timestamp property instantiated on the concrete
freshly created and opened file, writing three bytes at offset 1. -/
theorem write_returns_length_and_times_witness :
    sampleEmptyOpen.isOpen = true ∧
    sampleEmptyOpen.meta_data.creation_time ≤ 5 ∧
    (∃ f₁, sampleEmptyOpen.Write [9, 9, 9] 1 5 =
        Except.ok ([9, 9, 9].length, f₁) ∧
      f₁.meta_data.last_write_time = f₁.meta_data.last_status_time ∧
      f₁.meta_data.last_status_time = f₁.meta_data.last_access_time ∧
      f₁.meta_data.creation_time = sampleEmptyOpen.meta_data.creation_time ∧
      f₁.meta_data.creation_time ≤ f₁.meta_data.last_write_time) :=
  ⟨by decide, by decide,
   write_returns_length_and_times sampleEmptyOpen [9, 9, 9] 1 5
     (by decide) (by decide)⟩

/-- Helper: `truncateBytes` always produces exactly `n` bytes. -/
theorem truncateBytes_length (content : List Nat) (n : Nat) :
    (truncateBytes content n).length = n := by
  simp [truncateBytes]
  omega

/-- C3: for every open file whose buffered content matches its size,
`Truncate n` succeeds and sets `size = allocation_size = n`; a subsequent
full read returns the old content followed by zeros up to `n` when `n` grew
past the old size, and exactly the first `n` old bytes when `n` shrank below
it; and every read at an offset at or beyond `n` behaves as past-end,
returning zero bytes without error. -/
theorem truncate_spec (f : FileState) (n t u : Nat)
    (hopen : f.isOpen = true) (hwf : f.content.length = f.meta_data.size) :
    ∃ f₁, f.Truncate n t = Except.ok f₁ ∧
      f₁.meta_data.size = n ∧
      f₁.meta_data.allocation_size = n ∧
      (∃ c f₂, f₁.Read n 0 u = Except.ok (c, f₂) ∧
        (f.meta_data.size ≤ n →
          c = f.content ++ List.replicate (n - f.meta_data.size) 0) ∧
        (n < f.meta_data.size → c = f.content.take n)) ∧
      (∀ len offset, n ≤ offset →
        ∃ f₃, f₁.Read len offset u = Except.ok ([], f₃)) := by
  have hlen : (truncateBytes f.content n).length = n := truncateBytes_length _ _
  simp only [FileState.Truncate, hopen, if_true]
  refine ⟨_, rfl, rfl, rfl, ?_, ?_⟩
  · have hbytes : ((truncateBytes f.content n).drop 0).take n =
        truncateBytes f.content n := by
      rw [List.drop_zero]
      exact List.take_of_length_le (by omega)
    simp only [FileState.Read, hopen, if_true]
    rw [hbytes]
    refine ⟨_, _, rfl, ?_, ?_⟩
    · intro hle
      unfold truncateBytes
      rw [List.take_of_length_le (by omega), hwf]
    · intro hlt
      unfold truncateBytes
      have hz : n - f.content.length = 0 := by omega
      rw [hz]
      simp
  · intro len offset hoff
    have hd : (truncateBytes f.content n).drop offset = [] :=
      List.drop_eq_nil_of_le (by omega)
    simp only [FileState.Read, hopen, if_true, hd, List.take_nil]
    exact ⟨_, rfl⟩

/-- C3 witness: the truncate specification instantiated on the concrete open
file holding two bytes, truncating to 4 bytes. -/
theorem truncate_spec_witness :
    sampleTwoByteOpen.isOpen = true ∧
    sampleTwoByteOpen.content.length = sampleTwoByteOpen.meta_data.size ∧
    (∃ f₁, sampleTwoByteOpen.Truncate 4 5 = Except.ok f₁ ∧
      f₁.meta_data.size = 4 ∧
      f₁.meta_data.allocation_size = 4 ∧
      (∃ c f₂, f₁.Read 4 0 6 = Except.ok (c, f₂) ∧
        (sampleTwoByteOpen.meta_data.size ≤ 4 →
          c = sampleTwoByteOpen.content ++
            List.replicate (4 - sampleTwoByteOpen.meta_data.size) 0) ∧
        (4 < sampleTwoByteOpen.meta_data.size →
          c = sampleTwoByteOpen.content.take 4)) ∧
      (∀ len offset, 4 ≤ offset →
        ∃ f₃, f₁.Read len offset 6 = Except.ok ([], f₃))) :=
  ⟨by decide, by decide,
   truncate_spec sampleTwoByteOpen 4 5 6 (by decide) (by decide)⟩

/-- C4: for every open file, writing strictly more than twice the combined
memory and disk ceilings and then calling `Close` leaves exactly one deferred
flush task scheduled, and that task, when it runs, reports
`UsageExceededError` rather than succeeding. -/
theorem exceed_usage_flush_fails (f : FileState) (data : List Nat)
    (offset t : Nat)
    (hopen : f.isOpen = true)
    (hbig : 2 * (f.memory_ceiling + f.disk_ceiling) < data.length) :
    ∃ f₁, f.Write data offset t = Except.ok (data.length, f₁) ∧
      (f₁.Close).pendingTasks = 1 ∧
      ((f₁.Close).RunFlush).2 = Except.error FileError.UsageExceededError := by
  have hlen : data.length ≤ (writeBytes f.content data offset).length := by
    simp [writeBytes]
    omega
  have hgt : ¬ ((writeBytes f.content data offset).length ≤
      f.memory_ceiling + f.disk_ceiling) := by omega
  simp only [FileState.Write, hopen, if_true]
  refine ⟨_, rfl, ?_, ?_⟩
  · simp [FileState.Close]
  · simp [FileState.Close, FileState.RunFlush, hgt]

/-- C4 witness: the usage-exceeded property instantiated on the concrete
freshly created and opened file (ceilings 4 + 4) and a 17-byte write,
17 > 2 × (4 + 4). -/
theorem exceed_usage_flush_fails_witness :
    sampleEmptyOpen.isOpen = true ∧
    2 * (sampleEmptyOpen.memory_ceiling + sampleEmptyOpen.disk_ceiling) <
      (List.replicate 17 3).length ∧
    (∃ f₁, sampleEmptyOpen.Write (List.replicate 17 3) 0 5 =
        Except.ok ((List.replicate 17 3).length, f₁) ∧
      (f₁.Close).pendingTasks = 1 ∧
      ((f₁.Close).RunFlush).2 = Except.error FileError.UsageExceededError) :=
  ⟨by decide, by decide,
   exceed_usage_flush_fails sampleEmptyOpen (List.replicate 17 3) 0 5
     (by decide) (by decide)⟩

/-- C5: after `Close()` on a file whose `content_changed` flag is set,
exactly one deferred task is pending, and running that deferred flush leaves
`size` and `allocation_size` (and the pending-task count, which drops back to
zero) exactly as they were before the flush. -/
theorem close_schedules_one_flush_preserving_size (f : FileState)
    (hdirty : f.content_changed = true) :
    (f.Close).pendingTasks = 1 ∧
    ((f.Close).RunFlush).1.pendingTasks = 0 ∧
    ((f.Close).RunFlush).1.meta_data.size = f.meta_data.size ∧
    ((f.Close).RunFlush).1.meta_data.allocation_size =
      f.meta_data.allocation_size := by
  have hclose : f.Close = { f with pendingTasks := 1 } := by
    simp [FileState.Close, hdirty]
  rw [hclose]
  unfold FileState.RunFlush
  split <;> simp

/-- C5 witness: the close/flush frame property instantiated on the concrete
dirty open file holding two bytes. -/
theorem close_schedules_one_flush_preserving_size_witness :
    sampleTwoByteOpen.content_changed = true ∧
    ((sampleTwoByteOpen.Close).pendingTasks = 1 ∧
     ((sampleTwoByteOpen.Close).RunFlush).1.pendingTasks = 0 ∧
     ((sampleTwoByteOpen.Close).RunFlush).1.meta_data.size =
       sampleTwoByteOpen.meta_data.size ∧
     ((sampleTwoByteOpen.Close).RunFlush).1.meta_data.allocation_size =
       sampleTwoByteOpen.meta_data.allocation_size) :=
  ⟨by decide, close_schedules_one_flush_preserving_size sampleTwoByteOpen
    (by decide)⟩

/-- C9: the `FileContext(name, is_directory)` constructor initializes
`content_changed` to the negation of `is_directory`, so a newly named
regular-file context starts dirty, while a directory context, a
default-constructed context, and a context built from existing metadata all
start with `content_changed = false`. -/
theorem file_context_content_changed (name : String) (m : Option MetaData) :
    (∀ d : Bool, (FileContext.mkNamed name d).content_changed = !d) ∧
    (FileContext.mkNamed name false).content_changed = true ∧
    (FileContext.mkNamed name true).content_changed = false ∧
    FileContext.mkDefault.content_changed = false ∧
    (FileContext.mkFromMetaData m).content_changed = false :=
  ⟨fun d => rfl, rfl, rfl, rfl, rfl⟩

/-- C10: the `Get<nfs::ClientMaidNfs, Directory>` specialization returns a
default-constructed (empty) `NonEmptyString` for every storage state and
every name — the value the network delivers to the response functor is
discarded — whereas the generic `Get` returns `storage.Get(name)` directly. -/
theorem get_nfs_discards_delivered_value (storage : ClientMaidNfs)
    (name : String) :
    GetClientMaidNfs storage name = defaultNonEmptyString ∧
    GetGeneric storage.store name = storage.store name :=
  ⟨rfl, rfl⟩

/-- C6 witness: the fresh-file field properties instantiated at name "foo"
and creation instant 0. -/
theorem create_regular_file_fields_witness :
    (FileState.Create "foo" false 0).meta_data.size = 0 ∧
    (FileState.Create "foo" false 0).meta_data.allocation_size = 0 ∧
    (FileState.Create "foo" false 0).meta_data.creation_time = 0 ∧
    (FileState.Create "foo" false 0).meta_data.last_status_time = 0 ∧
    (FileState.Create "foo" false 0).meta_data.last_write_time = 0 ∧
    (FileState.Create "foo" false 0).meta_data.last_access_time = 0 ∧
    (FileState.Create "foo" false 0).meta_data.data_map = some [] ∧
    (FileState.Create "foo" false 0).meta_data.directory_id = none ∧
    (FileState.Create "foo" false 0).meta_data.file_type =
      FileType.regular_file :=
  create_regular_file_fields "foo" 0

/-- C9 witness: the `FileContext` dirty-flag properties instantiated at name
"foo" and a null metadata handle. -/
theorem file_context_content_changed_witness :
    (∀ d : Bool, (FileContext.mkNamed "foo" d).content_changed = !d) ∧
    (FileContext.mkNamed "foo" false).content_changed = true ∧
    (FileContext.mkNamed "foo" true).content_changed = false ∧
    FileContext.mkDefault.content_changed = false ∧
    (FileContext.mkFromMetaData none).content_changed = false :=
  file_context_content_changed "foo" none

/-- C10 witness: the `Get` dispatch properties instantiated at a concrete
one-value store and the name "dir". -/
theorem get_nfs_discards_delivered_value_witness :
    GetClientMaidNfs { store := fun _ => "stored" } "dir" =
      defaultNonEmptyString ∧
    GetGeneric (ClientMaidNfs.store { store := fun _ => "stored" }) "dir" =
      ClientMaidNfs.store { store := fun _ => "stored" } "dir" :=
  get_nfs_discards_delivered_value { store := fun _ => "stored" } "dir"
